import Mathlib

/-!
Shallow embedding of `src/managers/go/gocrypto/ecdsakey.go` from
mariotoffia/goservice, together with models of the external collaborators
(Go standard-library crypto/x509 parsing, the CryptoProvider primitives and
the PEM codec helpers in `utils/cryptoutils`) that the file consumes.

Conventions of the embedding:
- Go's `error` returns become `Except String`, carrying the exact
  `fmt.Errorf` message text the source formats.
- Byte slices holding ASN.1/PEM payloads are represented symbolically: a
  payload remembers which encoder produced it and from which native key,
  so that the external parsers can be modelled as exact partial inverses.
- Writer sinks are modelled by returning the list of PEM blocks written.
-/

namespace GoCrypto

/-- Named elliptic curves. Modelled from the spec: the CryptoProvider is an
external collaborator supplying curve primitives; the only attribute of a
curve this core observes is `Params().BitSize`. -/
inductive Curve
  | p224
  | p256
  | p384
  | p521
deriving DecidableEq, Repr

/-- Go `curve.Params().BitSize` for the named curves. -/
def Curve.bitSize : Curve → Nat
  | .p224 => 224
  | .p256 => 256
  | .p384 => 384
  | .p521 => 521

/-- Modelled from the spec: `ifcrypto.KeyUsage` (not under src/), a tag from
an enumerated domain describing permitted operations. -/
inductive KeyUsage
  | signing
  | keyAgreement
  | encryption
deriving DecidableEq, Repr

/-- Modelled from the spec: `ifcrypto.Chipher` (not under src/), a symmetric
cipher a key may be paired with; empty for pure asymmetric private keys. -/
inductive Chipher
  | aes
  | chacha20
deriving DecidableEq, Repr

/-- Modelled from the spec: `ifcrypto.KeyType` (not under src/), the tagged
variant identifying the algorithm family (elliptic-curve, RSA, symmetric).
The source refers to the RSA variant as `ifcrypto.KeyTypeRsa`. -/
inductive KeyType
  | ellipticCurve
  | rsa
  | symmetric
deriving DecidableEq, Repr

/-- Go `*ecdsa.PublicKey`: a curve and an affine point. The point coordinates
are carried opaquely; the elliptic-curve math is out of scope. -/
structure ECDSAPublicKeyNative where
  curve : Curve
  x : Nat
  y : Nat
deriving DecidableEq, Repr

/-- Go `*ecdsa.PrivateKey`: embeds its `PublicKey` and holds the secret
scalar `D`. -/
structure ECDSAPrivateKeyNative where
  publicKey : ECDSAPublicKeyNative
  d : Nat
deriving DecidableEq, Repr

/-- Go `key.Params().BitSize` on an `*ecdsa.PublicKey`. -/
def ECDSAPublicKeyNative.paramsBitSize (k : ECDSAPublicKeyNative) : Nat :=
  k.curve.bitSize

/-- Go `key.Params().BitSize` on an `*ecdsa.PrivateKey` (goes through the
embedded `PublicKey.Curve`). -/
def ECDSAPrivateKeyNative.paramsBitSize (k : ECDSAPrivateKeyNative) : Nat :=
  k.publicKey.curve.bitSize

/-- A native key object as returned by the Go x509 parsers through
`interface\x7b\x7d`: the parsers may yield keys of several algorithm
families. -/
inductive NativeKey
  | ecdsaPriv (k : ECDSAPrivateKeyNative)
  | ecdsaPub (k : ECDSAPublicKeyNative)
  | rsaPriv (bits : Nat)
  | rsaPub (bits : Nat)
  | ed25519Priv (seed : Nat)
deriving DecidableEq, Repr

/-- The Go dynamic type name of a native key, as `fmt.Errorf`'s %T verb
renders it. -/
def NativeKey.goTypeName : NativeKey → String
  | .ecdsaPriv _ => "*ecdsa.PrivateKey"
  | .ecdsaPub _ => "*ecdsa.PublicKey"
  | .rsaPriv _ => "*rsa.PrivateKey"
  | .rsaPub _ => "*rsa.PublicKey"
  | .ed25519Priv _ => "ed25519.PrivateKey"

/-- Algorithm family of a native key, used to state family-mismatch
hypotheses. -/
inductive KeyFamily
  | ecdsa
  | rsa
  | ed25519
deriving DecidableEq, Repr

/-- The algorithm family a native key belongs to. -/
def NativeKey.family : NativeKey → KeyFamily
  | .ecdsaPriv _ => .ecdsa
  | .ecdsaPub _ => .ecdsa
  | .rsaPriv _ => .rsa
  | .rsaPub _ => .rsa
  | .ed25519Priv _ => .ed25519

/-- A symbolic ASN.1 payload: it records which standard encoding produced it
and from which native key, so the external parsers below are exact partial
inverses of the encoders. `garbage` stands for any byte string no encoder
produced. -/
inductive Payload
  | pkcs8 (key : NativeKey)
  | sec1 (key : ECDSAPrivateKeyNative)
  | pkix (key : NativeKey)
  | garbage (raw : Nat)
deriving DecidableEq, Repr

/-- Go `pem.Block`: a declared label and the decoded payload bytes. -/
structure PemBlock where
  blockType : String
  bytes : Payload
deriving DecidableEq, Repr

/-- Modelled from the spec: Go `x509.ParsePKCS8PrivateKey` (external PEMCodec
collaborator). Succeeds exactly on PKCS#8 payloads, returning the wrapped
native key; anything else is a decoding error. -/
def ParsePKCS8PrivateKey : Payload → Except String NativeKey
  | .pkcs8 k => .ok k
  | _ => .error "x509: failed to parse private key"

/-- Modelled from the spec: Go `x509.ParseECPrivateKey` (external PEMCodec
collaborator), the algorithm-specific SEC1 elliptic-curve parser. -/
def ParseECPrivateKey : Payload → Except String ECDSAPrivateKeyNative
  | .sec1 k => .ok k
  | _ => .error "x509: failed to parse EC private key"

/-- Modelled from the spec: Go `x509.ParsePKIXPublicKey` (external PEMCodec
collaborator). -/
def ParsePKIXPublicKey : Payload → Except String NativeKey
  | .pkix k => .ok k
  | _ => .error "x509: failed to parse public key"

/-- Modelled from the spec: `KeyBase` (not under src/), the embedded shared
metadata record `KeyMetadata = \x7bid, keyType, keySizeBits, usage,
ciphers\x7d`; field names follow the source's composite literals in
`ecdsakey.go`. -/
structure KeyBase where
  id : String
  keyType : KeyType
  keySize : Nat
  usage : List KeyUsage
  chiper : List Chipher
deriving DecidableEq, Repr

/-- Go `ECDSAPublicKey`: KeyBase plus the native `*ecdsa.PublicKey`. -/
structure ECDSAPublicKey where
  base : KeyBase
  key : ECDSAPublicKeyNative
deriving DecidableEq, Repr

/-- Go `ECDSAPrivateKey`: KeyBase plus the native `*ecdsa.PrivateKey` and the
cached public counterpart. -/
structure ECDSAPrivateKey where
  base : KeyBase
  key : ECDSAPrivateKeyNative
  public : ECDSAPublicKey
deriving DecidableEq, Repr

/-- Go `NewECDSAPublicKeyFromKey`: wraps an existing native public key. The
source tags the handle with `ifcrypto.KeyTypeRsa` and leaves `chiper` at its
zero value (an empty slice). -/
def NewECDSAPublicKeyFromKey (id : String) (key : ECDSAPublicKeyNative)
    (usage : List KeyUsage) : ECDSAPublicKey :=
  { base :=
      { id := id
        keyType := KeyType.rsa
        keySize := key.paramsBitSize
        usage := usage
        chiper := [] }
    key := key }

/-- Go `NewECDSAPrivateKeyFromKey`: wraps an existing native private key,
deriving and caching the public counterpart with the same id and usage. The
source tags the handle with `ifcrypto.KeyTypeRsa`. -/
def NewECDSAPrivateKeyFromKey (id : String) (key : ECDSAPrivateKeyNative)
    (usage : List KeyUsage) : ECDSAPrivateKey :=
  { base :=
      { id := id
        keyType := KeyType.rsa
        keySize := key.paramsBitSize
        usage := usage
        chiper := [] }
    key := key
    public := NewECDSAPublicKeyFromKey id key.publicKey usage }

/-- Go `NewECDSAPrivateKeyFromPEM`: three-way dispatch on the PEM block
label. -/
def NewECDSAPrivateKeyFromPEM (block : PemBlock) (id : String)
    (usage : List KeyUsage) : Except String ECDSAPrivateKey :=
  if block.blockType = "PRIVATE KEY" then
    match ParsePKCS8PrivateKey block.bytes with
    | .error e => .error e
    | .ok key =>
      match key with
      | .ecdsaPriv ecdsakey => .ok (NewECDSAPrivateKeyFromKey id ecdsakey usage)
      | other => .error ("not a *ecdsa.PrivateKey: " ++ other.goTypeName)
  else if block.blockType = "EC PRIVATE KEY" then
    match ParseECPrivateKey block.bytes with
    | .error e => .error e
    | .ok key => .ok (NewECDSAPrivateKeyFromKey id key usage)
  else
    .error ("unsupported PEM block: " ++ block.blockType)

/-- Modelled from the spec: Go `ecdsa.GenerateKey` (the external
CryptoProvider's `generate(algorithmParams, entropySource)`). The entropy
source is an explicit stream of numbers; generation fails only when the
stream is exhausted. The scalar-to-point derivation is out-of-scope curve
math, modelled as an abstract deterministic function of the secret scalar. -/
def GenerateKey : Curve → List Nat → Except String ECDSAPrivateKeyNative
  | _, [] => .error "entropy source exhausted"
  | c, d :: _ => .ok { publicKey := { curve := c, x := d + d, y := d + 1 }, d := d }

/-- Go `NewECDSAPrivateKey`: generates a fresh key with `rand.Reader` as
entropy. The source always passes `elliptic.P256()` to `ecdsa.GenerateKey`
and never reads its `bits` parameter. -/
def NewECDSAPrivateKey (id : String) (bits : Int) (usage : List KeyUsage)
    (entropy : List Nat) : Except String ECDSAPrivateKey :=
  match GenerateKey Curve.p256 entropy with
  | .error e => .error e
  | .ok key => .ok (NewECDSAPrivateKeyFromKey id key usage)

/-- Modelled from the spec: the native `(*ecdsa.PrivateKey).Sign` of the
external CryptoProvider. The ECDSA math is out of scope; the signature is
an abstract deterministic function of the key material, the nonce drawn
from the rand stream, and the digest, failing only when the stream is
exhausted. -/
def ECDSAPrivateKeyNative.nativeSign (key : ECDSAPrivateKeyNative)
    (rand : List Nat) (digest : List Nat) : Except String (List Nat) :=
  match rand with
  | [] => .error "entropy source exhausted"
  | k :: _ => .ok (key.publicKey.curve.bitSize :: key.d :: k :: digest)

/-- Go `(*ECDSAPrivateKey).Sign`: delegates to the native key's signer; the
`opts` argument is unused by the source and omitted here. -/
def ECDSAPrivateKey.Sign (r : ECDSAPrivateKey) (rand : List Nat)
    (digest : List Nat) : Except String (List Nat) :=
  r.key.nativeSign rand digest

/-- Go `(*ECDSAPrivateKey).GetPublic`: returns the cached public portion. -/
def ECDSAPrivateKey.GetPublic (r : ECDSAPrivateKey) : ECDSAPublicKey :=
  r.public

/-- Modelled from the spec: `cryptoutils.ECDSAPrivateKeyToPEM` (not under
src/). Encodes the private material in the elliptic-curve-specific private
form (label "EC PRIVATE KEY" per the spec's label vocabulary); when `pub` is
true it appends a PKIX "PUBLIC KEY" block for the public portion. The writer
sink is modelled by returning the blocks written. -/
def ECDSAPrivateKeyToPEM (key : ECDSAPrivateKeyNative) (pub : Bool) :
    List PemBlock :=
  { blockType := "EC PRIVATE KEY", bytes := Payload.sec1 key } ::
    (if pub then
      [{ blockType := "PUBLIC KEY", bytes := Payload.pkix (NativeKey.ecdsaPub key.publicKey) }]
    else [])

/-- Modelled from the spec: `cryptoutils.ECDSAPublicKeyToPEM` (not under
src/): PKIX encoding of the public key under label "PUBLIC KEY". -/
def ECDSAPublicKeyToPEM (key : ECDSAPublicKeyNative) : List PemBlock :=
  [{ blockType := "PUBLIC KEY", bytes := Payload.pkix (NativeKey.ecdsaPub key) }]

/-- Go `(*ECDSAPrivateKey).PEMWrite`: writes the key onto the sink via
`cryptoutils.ECDSAPrivateKeyToPEM`. -/
def ECDSAPrivateKey.PEMWrite (r : ECDSAPrivateKey) (pub : Bool) : List PemBlock :=
  ECDSAPrivateKeyToPEM r.key pub

/-- Go `(*ECDSAPrivateKey).GetKey`. -/
def ECDSAPrivateKey.GetKey (r : ECDSAPrivateKey) : ECDSAPrivateKeyNative :=
  r.key

/-- Go `(*ECDSAPrivateKey).IsSymmetric`: constant false. -/
def ECDSAPrivateKey.IsSymmetric (_ : ECDSAPrivateKey) : Bool :=
  false

/-- Go `(*ECDSAPrivateKey).IsPrivate`: constant true. -/
def ECDSAPrivateKey.IsPrivate (_ : ECDSAPrivateKey) : Bool :=
  true

/-- Go `(*ECDSAPrivateKey).IsRemoteKey`: constant false. -/
def ECDSAPrivateKey.IsRemoteKey (_ : ECDSAPrivateKey) : Bool :=
  false

/-- Go `NewECDSAPublicKeyFromPEM`: accepts labels "PUBLIC KEY" and
"EC PUBLIC KEY", both through `x509.ParsePKIXPublicKey`. -/
def NewECDSAPublicKeyFromPEM (block : PemBlock) (id : String)
    (usage : List KeyUsage) : Except String ECDSAPublicKey :=
  if block.blockType = "PUBLIC KEY" ∨ block.blockType = "EC PUBLIC KEY" then
    match ParsePKIXPublicKey block.bytes with
    | .error e => .error e
    | .ok key =>
      match key with
      | .ecdsaPub ecdsakey => .ok (NewECDSAPublicKeyFromKey id ecdsakey usage)
      | other => .error ("not a *ecdsa.PublicKey: " ++ other.goTypeName)
  else
    .error ("unsupported PEM block: " ++ block.blockType)

/-- Go `(*ECDSAPublicKey).PEMWrite`: ignores the `pub` parameter and writes
the PKIX encoding. -/
def ECDSAPublicKey.PEMWrite (r : ECDSAPublicKey) (_ : Bool) : List PemBlock :=
  ECDSAPublicKeyToPEM r.key

/-- Go `(*ECDSAPublicKey).GetKey`. -/
def ECDSAPublicKey.GetKey (r : ECDSAPublicKey) : ECDSAPublicKeyNative :=
  r.key

/-- Go `(*ECDSAPublicKey).IsSymmetric`: constant false. -/
def ECDSAPublicKey.IsSymmetric (_ : ECDSAPublicKey) : Bool :=
  false

/-- Go `(*ECDSAPublicKey).IsPrivate`: constant true in the source. -/
def ECDSAPublicKey.IsPrivate (_ : ECDSAPublicKey) : Bool :=
  true

/-- Go `(*ECDSAPublicKey).IsRemoteKey`: constant false. -/
def ECDSAPublicKey.IsRemoteKey (_ : ECDSAPublicKey) : Bool :=
  false

/-- Claim C1: `NewECDSAPrivateKeyFromPEM` dispatches on the block's label in
exactly three ways — label "PRIVATE KEY" decodes the payload as PKCS#8 and
wraps the decoded ECDSA key through the from-native-key path
`NewECDSAPrivateKeyFromKey`; label "EC PRIVATE KEY" decodes via the
algorithm-specific EC parser and wraps it the same way; any other label
returns the unsupported-PEM-block error carrying the offending label, and no
handle is produced. -/
theorem newECDSAPrivateKeyFromPEM_dispatch (block : PemBlock) (id : String)
    (usage : List KeyUsage) :
    (block.blockType = "PRIVATE KEY" →
      ∀ k, ParsePKCS8PrivateKey block.bytes = Except.ok (NativeKey.ecdsaPriv k) →
        NewECDSAPrivateKeyFromPEM block id usage =
          Except.ok (NewECDSAPrivateKeyFromKey id k usage)) ∧
    (block.blockType = "EC PRIVATE KEY" →
      ∀ k, ParseECPrivateKey block.bytes = Except.ok k →
        NewECDSAPrivateKeyFromPEM block id usage =
          Except.ok (NewECDSAPrivateKeyFromKey id k usage)) ∧
    (block.blockType ≠ "PRIVATE KEY" → block.blockType ≠ "EC PRIVATE KEY" →
      NewECDSAPrivateKeyFromPEM block id usage =
        Except.error ("unsupported PEM block: " ++ block.blockType)) := by
  refine ⟨fun hT k hk => ?_, fun hT k hk => ?_, fun h1 h2 => ?_⟩
  · simp [NewECDSAPrivateKeyFromPEM, hT, hk]
  · simp [NewECDSAPrivateKeyFromPEM, hT, hk]
  · simp [NewECDSAPrivateKeyFromPEM, h1, h2]

/-- Claim C2 (code-bug evidence): every construction path tags the handle's
keyType metadata with the RSA variant — the source writes
`ifcrypto.KeyTypeRsa` in both composite literals — not the elliptic-curve
variant the claim states for ECDSA key material. -/
theorem ecdsaHandles_keyType_rsa (id : String) (key : ECDSAPrivateKeyNative)
    (pkey : ECDSAPublicKeyNative) (usage : List KeyUsage) :
    (NewECDSAPrivateKeyFromKey id key usage).base.keyType = KeyType.rsa ∧
    (NewECDSAPrivateKeyFromKey id key usage).public.base.keyType = KeyType.rsa ∧
    (NewECDSAPublicKeyFromKey id pkey usage).base.keyType = KeyType.rsa :=
  ⟨rfl, rfl, rfl⟩

/-- Claim C3 counterexample: a concrete `ECDSAPublicKey` handle reports
IsPrivate = true, refuting the claim that isPrivate() returns false for every
asymmetric public-key handle. -/
theorem ecdsaPublicKey_isPrivate_cex :
    (NewECDSAPublicKeyFromKey "k1" { curve := Curve.p256, x := 1, y := 2 }
        [KeyUsage.signing]).IsPrivate = true ∧
    ((NewECDSAPublicKeyFromKey "k1" { curve := Curve.p256, x := 1, y := 2 }
        [KeyUsage.signing]).IsPrivate = false → False) := by
  decide

/-- Claim C3 amended: IsPrivate returns true for every ECDSAPublicKey handle;
the source reports private=true for non-symmetric key types as well, the
convention the spec's design notes document as a quirk. -/
theorem ecdsaPublicKey_isPrivate_true (pk : ECDSAPublicKey) :
    pk.IsPrivate = true :=
  rfl

/-- Claim C4: a "PRIVATE KEY" block whose payload is structurally valid
PKCS#8 but decodes to a key of a different algorithm family than ECDSA makes
`NewECDSAPrivateKeyFromPEM` return the mismatch error carrying the actual
decoded Go type, and no handle is produced (the embedding is total, so no
panic is possible). -/
theorem fromPEM_family_mismatch (k : NativeKey) (id : String)
    (usage : List KeyUsage) (h : k.family ≠ KeyFamily.ecdsa) :
    NewECDSAPrivateKeyFromPEM
        { blockType := "PRIVATE KEY", bytes := Payload.pkcs8 k } id usage =
      Except.error ("not a *ecdsa.PrivateKey: " ++ k.goTypeName) := by
  cases k <;>
    simp_all [NewECDSAPrivateKeyFromPEM, ParsePKCS8PrivateKey,
      NativeKey.family, NativeKey.goTypeName]

/-- Claim C4 witness: an RSA private key under the "PRIVATE KEY" label is
rejected with the mismatch error naming the decoded type. -/
theorem fromPEM_family_mismatch_witness :
    (NativeKey.rsaPriv 2048).family ≠ KeyFamily.ecdsa ∧
    NewECDSAPrivateKeyFromPEM
        { blockType := "PRIVATE KEY",
          bytes := Payload.pkcs8 (NativeKey.rsaPriv 2048) } "k1" [] =
      Except.error ("not a *ecdsa.PrivateKey: " ++
        (NativeKey.rsaPriv 2048).goTypeName) :=
  ⟨by decide, fromPEM_family_mismatch (NativeKey.rsaPriv 2048) "k1" [] (by decide)⟩

/-- Claim C5: exactly one public counterpart is derived and cached at
construction, sharing the private handle's id and usage, and GetPublic is
total, returning that cached counterpart unchanged on every call. -/
theorem getPublic_cached (id : String) (key : ECDSAPrivateKeyNative)
    (usage : List KeyUsage) :
    (∀ r : ECDSAPrivateKey, r.GetPublic = r.public) ∧
    (NewECDSAPrivateKeyFromKey id key usage).public =
      NewECDSAPublicKeyFromKey id key.publicKey usage ∧
    (NewECDSAPrivateKeyFromKey id key usage).public.base.id =
      (NewECDSAPrivateKeyFromKey id key usage).base.id ∧
    (NewECDSAPrivateKeyFromKey id key usage).public.base.usage =
      (NewECDSAPrivateKeyFromKey id key usage).base.usage :=
  ⟨fun _ => rfl, rfl, rfl, rfl⟩

/-- Claim C6: `NewECDSAPublicKeyFromPEM` accepts exactly the labels
"PUBLIC KEY" and "EC PUBLIC KEY" as synonyms — the same payload decodes
identically through the PKIX parser under either label into the same handle
type — and any other label yields the unsupported-PEM-block error carrying
that label. -/
theorem newECDSAPublicKeyFromPEM_labels (block : PemBlock) (b : Payload)
    (id : String) (usage : List KeyUsage) :
    (NewECDSAPublicKeyFromPEM { blockType := "PUBLIC KEY", bytes := b } id usage =
      NewECDSAPublicKeyFromPEM { blockType := "EC PUBLIC KEY", bytes := b } id usage) ∧
    ((block.blockType = "PUBLIC KEY" ∨ block.blockType = "EC PUBLIC KEY") →
      ∀ k, ParsePKIXPublicKey block.bytes = Except.ok (NativeKey.ecdsaPub k) →
        NewECDSAPublicKeyFromPEM block id usage =
          Except.ok (NewECDSAPublicKeyFromKey id k usage)) ∧
    (block.blockType ≠ "PUBLIC KEY" → block.blockType ≠ "EC PUBLIC KEY" →
      NewECDSAPublicKeyFromPEM block id usage =
        Except.error ("unsupported PEM block: " ++ block.blockType)) := by
  refine ⟨?_, fun hT k hk => ?_, fun h1 h2 => ?_⟩
  · simp [NewECDSAPublicKeyFromPEM]
  · rcases hT with hT | hT <;> simp [NewECDSAPublicKeyFromPEM, hT, hk]
  · simp [NewECDSAPublicKeyFromPEM, h1, h2]

/-- Claim C7: for every generated private key, exporting with PEMWrite and
re-importing the written block (whose label "EC PRIVATE KEY" is one that the
from-PEM path accepts) yields a handle whose Sign output over any fixed rand
stream and digest, and whose GetPublic().PEMWrite output, are identical to
the original handle's. -/
theorem pem_roundTrip (id : String) (bits : Int) (usage : List KeyUsage)
    (entropy : List Nat) (hk : ECDSAPrivateKey)
    (hgen : NewECDSAPrivateKey id bits usage entropy = Except.ok hk) :
    ∃ blk hk2, hk.PEMWrite false = [blk] ∧
      NewECDSAPrivateKeyFromPEM blk id usage = Except.ok hk2 ∧
      (∀ rand digest, hk2.Sign rand digest = hk.Sign rand digest) ∧
      (∀ p1 p2 : Bool, hk2.GetPublic.PEMWrite p1 = hk.GetPublic.PEMWrite p2) := by
  cases entropy with
  | nil => simp [NewECDSAPrivateKey, GenerateKey] at hgen
  | cons d t =>
    simp [NewECDSAPrivateKey, GenerateKey] at hgen
    subst hgen
    refine ⟨_, _, rfl, ?_, fun _ _ => rfl, fun _ _ => rfl⟩
    simp [NewECDSAPrivateKeyFromPEM, ECDSAPrivateKey.PEMWrite,
      ECDSAPrivateKeyToPEM, ParseECPrivateKey, NewECDSAPrivateKeyFromKey]

/-- Claim C7 witness: the round trip instantiated on the key generated from
the concrete entropy stream [7]. -/
theorem pem_roundTrip_witness :
    NewECDSAPrivateKey "k1" 0 [KeyUsage.signing] [7] =
      Except.ok (NewECDSAPrivateKeyFromKey "k1"
        { publicKey := { curve := Curve.p256, x := 7 + 7, y := 7 + 1 }, d := 7 }
        [KeyUsage.signing]) ∧
    (∃ blk hk2,
      (NewECDSAPrivateKeyFromKey "k1"
        { publicKey := { curve := Curve.p256, x := 7 + 7, y := 7 + 1 }, d := 7 }
        [KeyUsage.signing]).PEMWrite false = [blk] ∧
      NewECDSAPrivateKeyFromPEM blk "k1" [KeyUsage.signing] = Except.ok hk2 ∧
      (∀ rand digest, hk2.Sign rand digest =
        (NewECDSAPrivateKeyFromKey "k1"
          { publicKey := { curve := Curve.p256, x := 7 + 7, y := 7 + 1 }, d := 7 }
          [KeyUsage.signing]).Sign rand digest) ∧
      (∀ p1 p2 : Bool, hk2.GetPublic.PEMWrite p1 =
        (NewECDSAPrivateKeyFromKey "k1"
          { publicKey := { curve := Curve.p256, x := 7 + 7, y := 7 + 1 }, d := 7 }
          [KeyUsage.signing]).GetPublic.PEMWrite p2)) :=
  ⟨rfl, pem_roundTrip "k1" 0 [KeyUsage.signing] [7] _ rfl⟩

/-- Claim C8: every key the generation path produces reports
IsRemoteKey = false and IsSymmetric = false. -/
theorem generated_not_remote_not_symmetric (id : String) (bits : Int)
    (usage : List KeyUsage) (entropy : List Nat) (hk : ECDSAPrivateKey)
    (hgen : NewECDSAPrivateKey id bits usage entropy = Except.ok hk) :
    hk.IsRemoteKey = false ∧ hk.IsSymmetric = false :=
  ⟨rfl, rfl⟩

/-- Claim C8 witness: the generation path at the concrete entropy stream [3]
produces a handle that is neither remote nor symmetric. -/
theorem generated_not_remote_not_symmetric_witness :
    NewECDSAPrivateKey "k2" 256 [] [3] =
      Except.ok (NewECDSAPrivateKeyFromKey "k2"
        { publicKey := { curve := Curve.p256, x := 3 + 3, y := 3 + 1 }, d := 3 } []) ∧
    ((NewECDSAPrivateKeyFromKey "k2"
        { publicKey := { curve := Curve.p256, x := 3 + 3, y := 3 + 1 }, d := 3 }
        []).IsRemoteKey = false ∧
      (NewECDSAPrivateKeyFromKey "k2"
        { publicKey := { curve := Curve.p256, x := 3 + 3, y := 3 + 1 }, d := 3 }
        []).IsSymmetric = false) :=
  ⟨rfl, generated_not_remote_not_symmetric "k2" 256 [] [3] _ rfl⟩

/-- Claim C9: for every handle, the keySize metadata equals the bit length
the concrete key material reports, namely the curve's BitSize, for the
private handle, its derived public handle, and directly wrapped public
handles alike. -/
theorem keySize_matches_material (id : String) (key : ECDSAPrivateKeyNative)
    (pkey : ECDSAPublicKeyNative) (usage : List KeyUsage) :
    (NewECDSAPrivateKeyFromKey id key usage).base.keySize =
      key.publicKey.curve.bitSize ∧
    (NewECDSAPrivateKeyFromKey id key usage).public.base.keySize =
      key.publicKey.curve.bitSize ∧
    (NewECDSAPublicKeyFromKey id pkey usage).base.keySize = pkey.curve.bitSize :=
  ⟨rfl, rfl, rfl⟩

/-- Claim C10: `NewECDSAPrivateKey` never reads its bits parameter — the
result is the same function of id, usage and entropy for any two bits
values — and every successfully generated handle has keySize 256, the P-256
curve's bit size. -/
theorem newECDSAPrivateKey_ignores_bits (id : String) (b1 b2 : Int)
    (usage : List KeyUsage) (entropy : List Nat) :
    NewECDSAPrivateKey id b1 usage entropy =
      NewECDSAPrivateKey id b2 usage entropy ∧
    (∀ hk, NewECDSAPrivateKey id b1 usage entropy = Except.ok hk →
      hk.base.keySize = 256) := by
  refine ⟨rfl, fun hk h => ?_⟩
  cases entropy with
  | nil => simp [NewECDSAPrivateKey, GenerateKey] at h
  | cons d t =>
    simp [NewECDSAPrivateKey, GenerateKey] at h
    subst h
    rfl

end GoCrypto
